import Mathlib

/-!
Shallow embedding of the core dispatch pipeline of the
alexnthnz/notification-system repository (Go), and proofs about it.

Modelling conventions:
* `time.Time` is abstracted as `Nat`; each Go call to `time.Now()` inside one
  operation is modelled by the single `now : Time` parameter of that operation.
* The PostgreSQL `notifications` table is a list of rows (an `UPDATE ... WHERE
  id = $1` maps over all rows with that id; a `SELECT ... WHERE id = $1` takes
  the first); nullable columns are `Option`s.
* Fallible external effects (the store insert, the Kafka broker write) are
  driven by explicit `Bool` oracles (`insertOk`, `brokerOk`); a Go
  `(T, error)` result becomes `Option T × Option String`.
* The Redis cache is an association list of key / value / TTL-seconds
  triples; `Set` overwrites the key.
-/

abbrev Time := Nat

inductive NotificationStatus where
  | pending
  | sent
  | delivered
  | failed
  | cancelled
deriving DecidableEq, Repr

/-- Go struct `notification.Notification` (part_003). -/
structure Notification where
  id : String
  userID : String
  channel : String
  recipient : String
  subject : String
  body : String
  status : NotificationStatus
  externalID : String
  errorMessage : String
  retryCount : Int
  scheduledAt : Option Time
  sentAt : Option Time
  deliveredAt : Option Time
  createdAt : Time
  updatedAt : Time
  metadata : List (String × String)
deriving DecidableEq, Repr

/-- Go struct `notification.NotificationRequest` (part_003). -/
structure NotificationRequest where
  userID : String
  channel : String
  recipient : String
  subject : String
  body : String
  priority : Int
  scheduledAt : Option Time
  template : String
  «variables» : List (String × String)
  metadata : List (String × String)
deriving DecidableEq, Repr

/-- Go struct `notification.UserPreference` (part_003). -/
structure UserPreference where
  id : String
  userID : String
  channel : String
  enabled : Bool
  frequency : String
  createdAt : Time
  updatedAt : Time
deriving DecidableEq, Repr

/-- Go struct `notification.DeliveryReport` (part_003). -/
structure DeliveryReport where
  notificationID : String
  externalID : String
  status : NotificationStatus
  errorMessage : String
  deliveredAt : Option Time
  metadata : List (String × String)
deriving DecidableEq, Repr

/-- Go struct `queue.NotificationMessage` (kafka.go). -/
structure NotificationMessage where
  id : String
  userID : String
  channel : String
  recipient : String
  subject : String
  body : String
  metadata : List (String × String)
  priority : Int
  createdAt : Time
deriving DecidableEq, Repr

/-- One message written to the Kafka topic: partition key, payload and the
two headers set by `Producer.PublishNotification` (kafka.go). -/
structure KafkaMessage where
  key : String
  value : NotificationMessage
  headers : List (String × String)
deriving DecidableEq, Repr

/-- One row of the `notifications` table (schema in `InitSchema`, part_002);
columns that are nullable or left to their defaults on insert are `Option`s. -/
structure DBRow where
  id : String
  userID : String
  channel : String
  recipient : String
  subject : String
  body : String
  status : NotificationStatus
  externalID : Option String
  errorMessage : Option String
  retryCount : Int
  scheduledAt : Option Time
  sentAt : Option Time
  deliveredAt : Option Time
  createdAt : Time
  updatedAt : Time
deriving DecidableEq, Repr

/-- One row of the `user_preferences` table (schema in `InitSchema`, part_002). -/
structure PrefRow where
  id : String
  userID : String
  channel : String
  enabled : Bool
  frequency : String
  createdAt : Time
  updatedAt : Time
deriving DecidableEq, Repr

/-- The mutable world seen by `notification.Service` (part_004): the two
tables, the Redis cache, and the log of messages written to Kafka. -/
structure ServiceState where
  notifications : List DBRow
  preferences : List PrefRow
  cache : List (String × UserPreference × Nat)
  queue : List KafkaMessage
deriving DecidableEq, Repr

/-- Redis `Set key value ttl`: overwrites any previous entry for the key. -/
def redisSet (cache : List (String × UserPreference × Nat)) (key : String)
    (v : UserPreference) (ttl : Nat) : List (String × UserPreference × Nat) :=
  (key, v, ttl) :: cache.filter (fun e => decide (e.1 ≠ key))

/-- Go `RedisClient.CacheUserPreferences` (redis.go): caches under key
`"user_preferences:" ++ userID` with a one-hour (3600 s) expiry. -/
def RedisClient.CacheUserPreferences (cache : List (String × UserPreference × Nat))
    (userID : String) (pref : UserPreference) : List (String × UserPreference × Nat) :=
  redisSet cache ("user_preferences:" ++ userID) pref 3600

/-- The `SELECT ... FROM user_preferences WHERE user_id = $1 AND channel = $2`
of `Service.getUserPreferences`. -/
def prefLookup (prefs : List PrefRow) (userID channel : String) : Option PrefRow :=
  prefs.find? (fun p => decide (p.userID = userID ∧ p.channel = channel))

/-- The `Scan` of a `user_preferences` row into a `UserPreference`. -/
def prefOfRow (p : PrefRow) : UserPreference :=
  { id := p.id, userID := p.userID, channel := p.channel, enabled := p.enabled,
    frequency := p.frequency, createdAt := p.createdAt, updatedAt := p.updatedAt }

/-- Go `Service.getUserPreferences` (part_004 lines 187-231): probes the cache
under key `"user_preferences:<user>:<channel>"` but falls through to the store
either way; if no row exists, returns the default (enabled, immediate) without
persisting it; if a row exists, caches it via `CacheUserPreferences` and
returns it. -/
def Service.getUserPreferences (s : ServiceState) (userID channel : String)
    (now : Time) : UserPreference × ServiceState :=
  let _cacheProbe :=
    s.cache.find? (fun e => decide (e.1 = "user_preferences:" ++ userID ++ ":" ++ channel))
  match prefLookup s.preferences userID channel with
  | none =>
      ({ id := "", userID := userID, channel := channel, enabled := true,
         frequency := "immediate", createdAt := now, updatedAt := now }, s)
  | some p =>
      let pref := prefOfRow p
      (pref, { s with cache := RedisClient.CacheUserPreferences s.cache userID pref })

/-- The condition `req.ScheduledAt == nil || req.ScheduledAt.Before(time.Now())`
guarding the publish in `Service.CreateNotification`. -/
def publishDue (scheduledAt : Option Time) (now : Time) : Bool :=
  match scheduledAt with
  | none => true
  | some t => decide (t < now)

/-- The `Notification` value built by `Service.CreateNotification` (part_004
lines 53-66); unset Go fields are zero values. -/
def buildNotification (req : NotificationRequest) (id : String) (now : Time) :
    Notification :=
  { id := id, userID := req.userID, channel := req.channel, recipient := req.recipient,
    subject := req.subject, body := req.body, status := .pending, externalID := "",
    errorMessage := "", retryCount := 0, scheduledAt := req.scheduledAt,
    sentAt := none, deliveredAt := none, createdAt := now, updatedAt := now,
    metadata := req.metadata }

/-- The row written by the INSERT of `Service.CreateNotification` (part_004
lines 69-77): it lists only ten columns, so `external_id`, `error_message`,
`sent_at`, `delivered_at` are NULL and `retry_count` takes its schema default
0; no metadata column exists in the `notifications` table. -/
def insertedRow (n : Notification) : DBRow :=
  { id := n.id, userID := n.userID, channel := n.channel, recipient := n.recipient,
    subject := n.subject, body := n.body, status := n.status, externalID := none,
    errorMessage := none, retryCount := 0, scheduledAt := n.scheduledAt,
    sentAt := none, deliveredAt := none, createdAt := n.createdAt,
    updatedAt := n.updatedAt }

/-- The `queue.NotificationMessage` built by `Service.CreateNotification`
(part_004 lines 85-95). -/
def queueMessageOf (n : Notification) (priority : Int) : NotificationMessage :=
  { id := n.id, userID := n.userID, channel := n.channel, recipient := n.recipient,
    subject := n.subject, body := n.body, metadata := n.metadata,
    priority := priority, createdAt := n.createdAt }

/-- The `kafka.Message` built by `Producer.PublishNotification` (kafka.go
lines 75-83): key is the notification id, plus channel/priority headers. -/
def kafkaMessageOf (msg : NotificationMessage) : KafkaMessage :=
  { key := msg.id, value := msg,
    headers := [("channel", msg.channel), ("priority", toString msg.priority)] }

/-- Go `Producer.PublishNotification` (kafka.go lines 67-92): appends one keyed
message to the topic when the broker write succeeds, else reports an error. -/
def Producer.PublishNotification (queue : List KafkaMessage)
    (msg : NotificationMessage) (brokerOk : Bool) :
    List KafkaMessage × Option String :=
  if brokerOk then (queue ++ [kafkaMessageOf msg], none)
  else (queue, some "failed to write message to Kafka")

/-- Go `Service.CreateNotification` (part_004 lines 32-105): resolve the
preference gate; abort with an error if disabled; default priority to 2 when
0; insert the pending record (abort on insert failure); publish to the queue
when due, ignoring publish errors. -/
def Service.CreateNotification (s : ServiceState) (req : NotificationRequest)
    (id : String) (now : Time) (insertOk brokerOk : Bool) :
    (Option Notification × Option String) × ServiceState :=
  let pres := Service.getUserPreferences s req.userID req.channel now
  let preferences := pres.1
  let s1 := pres.2
  if preferences.enabled then
    let priority := if req.priority = 0 then 2 else req.priority
    let n := buildNotification req id now
    if insertOk then
      let s2 := { s1 with notifications := s1.notifications ++ [insertedRow n] }
      if publishDue req.scheduledAt now then
        let pub := Producer.PublishNotification s2.queue (queueMessageOf n priority) brokerOk
        ((some n, none), { s2 with queue := pub.1 })
      else
        ((some n, none), s2)
    else
      ((none, some "failed to insert notification"), s1)
  else
    ((none, some ("notifications disabled for user " ++ req.userID ++
        " on channel " ++ req.channel)), s1)

/-- The `Scan` of a `notifications` row into a `Notification` in
`Service.GetNotification` (part_004 lines 115-147): NULL strings become "",
NULL times stay absent; no metadata column is selected, so metadata is nil. -/
def rowToNotification (r : DBRow) : Notification :=
  { id := r.id, userID := r.userID, channel := r.channel, recipient := r.recipient,
    subject := r.subject, body := r.body, status := r.status,
    externalID := r.externalID.getD "", errorMessage := r.errorMessage.getD "",
    retryCount := r.retryCount, scheduledAt := r.scheduledAt, sentAt := r.sentAt,
    deliveredAt := r.deliveredAt, createdAt := r.createdAt, updatedAt := r.updatedAt,
    metadata := [] }

/-- Go `Service.GetNotification` (part_004 lines 108-150). -/
def Service.GetNotification (s : ServiceState) (id : String) : Option Notification :=
  (s.notifications.find? (fun r => decide (r.id = id))).map rowToNotification

/-- The per-row effect of the UPDATE in `Service.UpdateNotificationStatus`
(part_004 lines 156-175): status, external_id, error_message and updated_at
are always overwritten; sent_at is set (to now) exactly when the new status is
`sent`, delivered_at exactly when it is `delivered`. -/
def updateRow (status : NotificationStatus) (externalID errorMessage : String)
    (now : Time) (r : DBRow) : DBRow :=
  { r with status := status,
           externalID := some externalID,
           errorMessage := some errorMessage,
           updatedAt := now,
           sentAt := if status = .sent then some now else r.sentAt,
           deliveredAt := if status = .delivered then some now else r.deliveredAt }

/-- Go `Service.UpdateNotificationStatus` (part_004 lines 153-184). -/
def Service.UpdateNotificationStatus (s : ServiceState) (id : String)
    (status : NotificationStatus) (externalID errorMessage : String)
    (now : Time) : ServiceState :=
  { s with notifications := s.notifications.map
             (fun r => if r.id = id then updateRow status externalID errorMessage now r
                       else r) }

/-- Go interface `channels.Channel` (interface.go): a send function returning
a report or an error, and a channel-type identifier. -/
structure Channel where
  sendNotification : Notification → Option DeliveryReport × Option String
  getChannelType : String

/-- Go `channels.ChannelManager` (interface.go): a map from channel type to
adapter, modelled as an association list with at most one entry per key. -/
structure ChannelManager where
  channels : List (String × Channel)

/-- Go `ChannelManager.RegisterChannel` (interface.go): last registration for
a channel type wins. -/
def ChannelManager.RegisterChannel (cm : ChannelManager) (ch : Channel) :
    ChannelManager :=
  { channels := (ch.getChannelType, ch) ::
      cm.channels.filter (fun p => decide (p.1 ≠ ch.getChannelType)) }

/-- Go `ChannelManager.GetChannel` (interface.go). -/
def ChannelManager.GetChannel (cm : ChannelManager) (channelType : String) :
    Option Channel :=
  (cm.channels.find? (fun p => decide (p.1 = channelType))).map (fun p => p.2)

/-- Go `ChannelManager.SendNotification` (interface.go lines 38-49): route to
the registered adapter, or return a synthetic failed report with no error. -/
def ChannelManager.SendNotification (cm : ChannelManager) (notif : Notification) :
    Option DeliveryReport × Option String :=
  match cm.GetChannel notif.channel with
  | none =>
      (some { notificationID := notif.id, externalID := "", status := .failed,
              errorMessage := "unsupported channel type: " ++ notif.channel,
              deliveredAt := none, metadata := [] }, none)
  | some channel => channel.sendNotification notif

/-- One status-update call issued against the store, as a worker or
administrative caller would issue it. -/
structure StatusUpdate where
  status : NotificationStatus
  externalID : String
  errorMessage : String
  time : Time
deriving DecidableEq, Repr

/-- Applies a sequence of `Service.UpdateNotificationStatus` calls for one id. -/
def applyUpdates (s : ServiceState) (id : String) : List StatusUpdate → ServiceState
  | [] => s
  | u :: us =>
      applyUpdates
        (Service.UpdateNotificationStatus s id u.status u.externalID u.errorMessage u.time)
        id us

/-- The row-level effect of a sequence of status updates. -/
def rowApply (r : DBRow) : List StatusUpdate → DBRow
  | [] => r
  | u :: us => rowApply (updateRow u.status u.externalID u.errorMessage u.time r) us

/-! ### Helper lemmas -/

/-- Resolving preferences never touches the notifications table or the queue:
`Service.getUserPreferences` only reads the store and (at most) writes the
cache. -/
theorem getUserPreferences_frame (s : ServiceState) (userID channel : String)
    (now : Time) :
    (Service.getUserPreferences s userID channel now).2.notifications = s.notifications ∧
    (Service.getUserPreferences s userID channel now).2.preferences = s.preferences ∧
    (Service.getUserPreferences s userID channel now).2.queue = s.queue := by
  unfold Service.getUserPreferences
  cases prefLookup s.preferences userID channel <;> simp

/-- Updating a row never changes its id. -/
theorem updateRow_id (status : NotificationStatus) (e m : String) (t : Time)
    (r : DBRow) : (updateRow status e m t r).id = r.id := rfl

/-- An id-preserving conditional rewrite of the rows commutes with looking a
row up by id: the UPDATE applies the per-row function exactly to the row the
SELECT would have found. -/
theorem find?_update_map (l : List DBRow) (id : String) (f : DBRow → DBRow)
    (hf : ∀ r, (f r).id = r.id) :
    (l.map (fun r => if r.id = id then f r else r)).find? (fun r => decide (r.id = id)) =
      (l.find? (fun r => decide (r.id = id))).map f := by
  induction l with
  | nil => rfl
  | cons a t ih =>
      by_cases h : a.id = id
      · simp [List.find?, h, hf]
      · simp [List.find?, h, ih]

/-- Looking up a freshly appended row finds it when no earlier row has its id. -/
theorem find?_append_fresh (l : List DBRow) (x : DBRow) (id : String)
    (hfresh : ∀ r ∈ l, r.id ≠ id) (hx : x.id = id) :
    (l ++ [x]).find? (fun r => decide (r.id = id)) = some x := by
  induction l with
  | nil => simp [List.find?, hx]
  | cons a t ih =>
      have ha : a.id ≠ id := hfresh a (List.mem_cons_self a t)
      have ht := ih (fun r hr => hfresh r (List.mem_cons_of_mem a hr))
      simpa [List.find?, ha] using ht

/-- Applying a sequence of status updates to the state acts row-wise, through
`rowApply`, on the row the lookup finds. -/
theorem find?_applyUpdates (s : ServiceState) (id : String)
    (us : List StatusUpdate) :
    ((applyUpdates s id us).notifications.find? (fun r => decide (r.id = id))) =
      (s.notifications.find? (fun r => decide (r.id = id))).map
        (fun r => rowApply r us) := by
  induction us generalizing s with
  | nil => simp [applyUpdates, rowApply]
  | cons u us ih =>
      rw [applyUpdates, ih, Service.UpdateNotificationStatus]
      simp only
      rw [find?_update_map s.notifications id
            (updateRow u.status u.externalID u.errorMessage u.time) (fun r => rfl)]
      cases s.notifications.find? (fun r => decide (r.id = id)) <;>
        simp [rowApply]

/-- Across a sequence of status updates, `sent_at` is populated exactly when
the row started with it populated or some update in the sequence carried
status `sent`; no update ever clears it. -/
theorem rowApply_sentAt (r : DBRow) (us : List StatusUpdate) :
    (rowApply r us).sentAt.isSome =
      (r.sentAt.isSome || us.any (fun u => decide (u.status = .sent))) := by
  induction us generalizing r with
  | nil => simp [rowApply]
  | cons u us ih =>
      rw [rowApply, ih]
      by_cases h : u.status = NotificationStatus.sent
      · simp [updateRow, h]
      · simp [updateRow, h, Bool.or_assoc]

/-! ### Concrete sample values -/

def emptyState : ServiceState :=
  { notifications := [], preferences := [], cache := [], queue := [] }

def sampleReq : NotificationRequest :=
  { userID := "u1", channel := "email", recipient := "a@b.com", subject := "",
    body := "hi", priority := 0, scheduledAt := none, template := "",
    «variables» := [], metadata := [("k", "v")] }

def sampleNotif : Notification := buildNotification sampleReq "n1" 0

def sampleRow : DBRow := insertedRow sampleNotif

def stateOneRow : ServiceState := { emptyState with notifications := [sampleRow] }

def sampleAdapter : Channel :=
  { sendNotification := fun n =>
      (some { notificationID := n.id, externalID := "ext-1", status := .sent,
              errorMessage := "", deliveredAt := none, metadata := [] }, none),
    getChannelType := "email" }

def cmEmpty : ChannelManager := { channels := [] }

def cmEmail : ChannelManager := ChannelManager.RegisterChannel cmEmpty sampleAdapter

def smsReq : NotificationRequest :=
  { sampleReq with channel := "sms", recipient := "+15550001111" }

def prefRowEmail : PrefRow :=
  { id := "p1", userID := "u1", channel := "email", enabled := true,
    frequency := "daily", createdAt := 0, updatedAt := 0 }

def prefRowSms : PrefRow :=
  { id := "p2", userID := "u1", channel := "sms", enabled := false,
    frequency := "immediate", createdAt := 0, updatedAt := 0 }

def stateWithPrefs : ServiceState :=
  { emptyState with preferences := [prefRowEmail, prefRowSms] }

/-! ### Claim theorems -/

/-- C1: `ChannelManager.SendNotification` returns, for a notification whose
channel has no registered adapter, a report with the notification's id,
status `failed` and error message exactly
"unsupported channel type: <channel>", together with no error; for a
notification whose channel has a registered adapter it returns exactly that
adapter's `sendNotification` result. -/
theorem c1_channel_routing (cm : ChannelManager) (notif : Notification) :
    (cm.GetChannel notif.channel = none →
      cm.SendNotification notif =
        (some { notificationID := notif.id, externalID := "", status := .failed,
                errorMessage := "unsupported channel type: " ++ notif.channel,
                deliveredAt := none, metadata := [] }, none)) ∧
    (∀ ch, cm.GetChannel notif.channel = some ch →
      cm.SendNotification notif = ch.sendNotification notif) := by
  constructor
  · intro h
    simp [ChannelManager.SendNotification, h]
  · intro ch h
    simp [ChannelManager.SendNotification, h]

/-- Witness for C1: with no adapters registered, sending an email
notification yields the synthetic failed report; with an email adapter
registered, sending returns the adapter's own result. -/
theorem c1_channel_routing_witness :
    ChannelManager.SendNotification cmEmpty sampleNotif =
      (some { notificationID := "n1", externalID := "", status := .failed,
              errorMessage := "unsupported channel type: email",
              deliveredAt := none, metadata := [] }, none) ∧
    ChannelManager.SendNotification cmEmail sampleNotif =
      sampleAdapter.sendNotification sampleNotif :=
  ⟨(c1_channel_routing cmEmpty sampleNotif).1 rfl,
   (c1_channel_routing cmEmail sampleNotif).2 sampleAdapter rfl⟩

/-- C2: status updates are plain last-write-wins overwrites with no
monotonicity guard: updating an existing notification to `sent` and then to
`failed` leaves the persisted record with status `failed`. -/
theorem c2_last_write_wins (s : ServiceState) (id e₁ m₁ e₂ m₂ : String)
    (t₁ t₂ : Time) (h : (Service.GetNotification s id).isSome = true) :
    (Service.GetNotification
        (Service.UpdateNotificationStatus
          (Service.UpdateNotificationStatus s id .sent e₁ m₁ t₁)
          id .failed e₂ m₂ t₂) id).map Notification.status = some .failed := by
  simp only [Service.GetNotification, Service.UpdateNotificationStatus] at *
  rw [find?_update_map _ id (updateRow .failed e₂ m₂ t₂) (fun r => rfl),
      find?_update_map _ id (updateRow .sent e₁ m₁ t₁) (fun r => rfl)]
  cases hr : s.notifications.find? (fun r => decide (r.id = id)) with
  | none => rw [hr] at h; simp at h
  | some r => simp [rowToNotification, updateRow]

/-- Witness for C2: a concrete pending record updated to `sent` and then to
`failed` ends with status `failed`. -/
theorem c2_last_write_wins_witness :
    (Service.GetNotification
        (Service.UpdateNotificationStatus
          (Service.UpdateNotificationStatus stateOneRow "n1" .sent "ext-1" "" 1)
          "n1" .failed "" "provider error" 2) "n1").map Notification.status =
      some .failed :=
  c2_last_write_wins stateOneRow "n1" "ext-1" "" "" "provider error" 1 2 (by decide)

/-- Overwriting a row twice with the same outcome equals overwriting it once
at the later time. -/
theorem updateRow_twice (st : NotificationStatus) (e m : String) (t₁ t₂ : Time)
    (r : DBRow) :
    updateRow st e m t₂ (updateRow st e m t₁ r) = updateRow st e m t₂ r := by
  cases st <;> simp [updateRow]

/-- C8: applying the same delivery outcome (status, external id, error
message) twice yields a persisted state identical to applying it once at the
later time: every field is overwritten, not accumulated (here even
`retry_count` agrees, since the update never touches it). -/
theorem c8_update_idempotent (s : ServiceState) (id : String)
    (st : NotificationStatus) (e m : String) (t₁ t₂ : Time) :
    Service.UpdateNotificationStatus
        (Service.UpdateNotificationStatus s id st e m t₁) id st e m t₂ =
      Service.UpdateNotificationStatus s id st e m t₂ := by
  simp only [Service.UpdateNotificationStatus, List.map_map]
  have hfun :
      ((fun r => if r.id = id then updateRow st e m t₂ r else r) ∘
        (fun r => if r.id = id then updateRow st e m t₁ r else r)) =
      (fun r => if r.id = id then updateRow st e m t₂ r else r) := by
    funext r
    by_cases h : r.id = id
    · simp [Function.comp, h, updateRow_id, updateRow_twice]
    · simp [Function.comp, h]
  rw [hfun]

/-- C10: frame of a status update: `external_id`, `error_message` and
`updated_at` are unconditionally overwritten with exactly the given
arguments (so a success update with empty error erases earlier error text and
a failure update erases an earlier external id); `sent_at` is modified only
when the new status is `sent`, `delivered_at` only when it is `delivered`;
id, user, channel, recipient, subject, body, retry count, scheduled and
creation times are never changed; and the service-level call applies this
per-row overwrite to exactly the rows whose id matches. -/
theorem c10_update_frame (s : ServiceState) (id : String)
    (st : NotificationStatus) (e m : String) (t : Time) :
    (Service.UpdateNotificationStatus s id st e m t).notifications =
      s.notifications.map
        (fun r => if r.id = id then updateRow st e m t r else r) ∧
    ∀ r : DBRow,
      (updateRow st e m t r).status = st ∧
      (updateRow st e m t r).externalID = some e ∧
      (updateRow st e m t r).errorMessage = some m ∧
      (updateRow st e m t r).updatedAt = t ∧
      (updateRow st e m t r).sentAt = (if st = .sent then some t else r.sentAt) ∧
      (updateRow st e m t r).deliveredAt =
        (if st = .delivered then some t else r.deliveredAt) ∧
      (updateRow st e m t r).id = r.id ∧
      (updateRow st e m t r).userID = r.userID ∧
      (updateRow st e m t r).channel = r.channel ∧
      (updateRow st e m t r).recipient = r.recipient ∧
      (updateRow st e m t r).subject = r.subject ∧
      (updateRow st e m t r).body = r.body ∧
      (updateRow st e m t r).retryCount = r.retryCount ∧
      (updateRow st e m t r).scheduledAt = r.scheduledAt ∧
      (updateRow st e m t r).createdAt = r.createdAt :=
  ⟨rfl, fun _ => ⟨rfl, rfl, rfl, rfl, rfl, rfl, rfl, rfl, rfl, rfl, rfl, rfl,
    rfl, rfl, rfl⟩⟩

/-- Shape of the notifications table after a gate-approved creation whose
insert succeeds: the new row is appended, nothing else changes. -/
theorem create_insert_shape (s : ServiceState) (req : NotificationRequest)
    (id : String) (now : Time) (brokerOk : Bool)
    (hen : (Service.getUserPreferences s req.userID req.channel now).1.enabled = true) :
    (Service.CreateNotification s req id now true brokerOk).2.notifications =
      s.notifications ++ [insertedRow (buildNotification req id now)] := by
  have hf := getUserPreferences_frame s req.userID req.channel now
  by_cases hd : publishDue req.scheduledAt now <;>
    simp [Service.CreateNotification, hen, hd, Producer.PublishNotification, hf.1]

/-- Counterexample to C3: the Scenario-D run — create a pending record, apply
a `sent` outcome, then a `failed` outcome — reaches a persisted record with
status `failed` and `sent_at` still set, contradicting the claimed invariant
that `sent_at` is set if and only if the status has reached `sent` or later
(in particular that no reachable record has status `failed` with `sent_at`
set). -/
theorem c3_counterexample :
    (Service.GetNotification
        (Service.UpdateNotificationStatus
          (Service.UpdateNotificationStatus
            (Service.CreateNotification emptyState sampleReq "n1" 0 true true).2
            "n1" .sent "ext-1" "" 1)
          "n1" .failed "" "provider error" 2) "n1").map
      (fun n => (n.status, n.sentAt)) = some (.failed, some 1) := by
  decide

/-- C3 (amended): a record created `pending` has no `sent_at`, and after any
sequence of status updates `sent_at` is set exactly when some update in the
sequence carried status `sent` — updates never clear it, so the status-based
"if and only if" of the original claim holds only for forward-moving update
sequences. -/
theorem c3_sentAt_tracks_sent_updates (s : ServiceState)
    (req : NotificationRequest) (id : String) (now : Time) (brokerOk : Bool)
    (us : List StatusUpdate)
    (hen : (Service.getUserPreferences s req.userID req.channel now).1.enabled = true)
    (hfresh : ∀ r ∈ s.notifications, r.id ≠ id) :
    (Service.GetNotification
        (applyUpdates ((Service.CreateNotification s req id now true brokerOk).2)
          id us) id).map (fun n => n.sentAt.isSome) =
      some (us.any (fun u => decide (u.status = .sent))) := by
  rw [Service.GetNotification, find?_applyUpdates,
      create_insert_shape s req id now brokerOk hen,
      find?_append_fresh s.notifications _ id hfresh rfl]
  simp [rowApply_sentAt, insertedRow, rowToNotification]

/-- Witness for C3 (amended): after creating a record and applying `sent`
then `failed`, `sent_at` is set, matching the presence of a `sent` update in
the sequence. -/
theorem c3_sentAt_tracks_sent_updates_witness :
    (Service.GetNotification
        (applyUpdates ((Service.CreateNotification emptyState sampleReq "n1" 0 true true).2)
          "n1" [⟨.sent, "ext-1", "", 1⟩, ⟨.failed, "", "provider error", 2⟩]) "n1").map
      (fun n => n.sentAt.isSome) =
      some (([⟨.sent, "ext-1", "", 1⟩, ⟨.failed, "", "provider error", 2⟩] :
          List StatusUpdate).any (fun u => decide (u.status = .sent))) :=
  c3_sentAt_tracks_sent_updates emptyState sampleReq "n1" 0 true
    [⟨.sent, "ext-1", "", 1⟩, ⟨.failed, "", "provider error", 2⟩]
    (by decide) (by simp [emptyState])

/-- C4: when the resolved preference has enabled=false, creation returns an
error (and no notification), inserts no row, and publishes no message. -/
theorem c4_preference_denied (s : ServiceState) (req : NotificationRequest)
    (id : String) (now : Time) (insertOk brokerOk : Bool)
    (h : (Service.getUserPreferences s req.userID req.channel now).1.enabled = false) :
    (Service.CreateNotification s req id now insertOk brokerOk).1 =
      (none, some ("notifications disabled for user " ++ req.userID ++
        " on channel " ++ req.channel)) ∧
    (Service.CreateNotification s req id now insertOk brokerOk).2.notifications =
      s.notifications ∧
    (Service.CreateNotification s req id now insertOk brokerOk).2.queue = s.queue := by
  have hf := getUserPreferences_frame s req.userID req.channel now
  refine ⟨?_, ?_, ?_⟩ <;> simp [Service.CreateNotification, h, hf.1, hf.2.2]

/-- Witness for C4: with a stored (u1, sms) preference row whose enabled flag
is false, creation is rejected and the store and queue are untouched. -/
theorem c4_preference_denied_witness :
    (Service.CreateNotification stateWithPrefs smsReq "n2" 0 true true).1 =
      (none, some ("notifications disabled for user " ++ smsReq.userID ++
        " on channel " ++ smsReq.channel)) ∧
    (Service.CreateNotification stateWithPrefs smsReq "n2" 0 true true).2.notifications =
      stateWithPrefs.notifications ∧
    (Service.CreateNotification stateWithPrefs smsReq "n2" 0 true true).2.queue =
      stateWithPrefs.queue :=
  c4_preference_denied stateWithPrefs smsReq "n2" 0 true true (by decide)

/-- C6: a queue-publish failure after a successful insert is non-fatal:
creation still returns the created notification with status `pending` and no
error; the row is persisted and the queue is left unchanged. -/
theorem c6_publish_failure_nonfatal (s : ServiceState)
    (req : NotificationRequest) (id : String) (now : Time)
    (hen : (Service.getUserPreferences s req.userID req.channel now).1.enabled = true)
    (hdue : publishDue req.scheduledAt now = true) :
    (Service.CreateNotification s req id now true false).1 =
      (some (buildNotification req id now), none) ∧
    (buildNotification req id now).status = .pending ∧
    (Service.CreateNotification s req id now true false).2.notifications =
      s.notifications ++ [insertedRow (buildNotification req id now)] ∧
    (Service.CreateNotification s req id now true false).2.queue = s.queue := by
  have hf := getUserPreferences_frame s req.userID req.channel now
  refine ⟨?_, rfl, ?_, ?_⟩ <;>
    simp [Service.CreateNotification, hen, hdue, Producer.PublishNotification,
          hf.1, hf.2.2]

/-- Witness for C6: creating an unscheduled email notification while the
broker write fails still returns the pending notification and no error, and
the queue stays empty. -/
theorem c6_publish_failure_nonfatal_witness :
    (Service.CreateNotification emptyState sampleReq "n1" 0 true false).1 =
      (some (buildNotification sampleReq "n1" 0), none) ∧
    (buildNotification sampleReq "n1" 0).status = .pending ∧
    (Service.CreateNotification emptyState sampleReq "n1" 0 true false).2.notifications =
      emptyState.notifications ++ [insertedRow (buildNotification sampleReq "n1" 0)] ∧
    (Service.CreateNotification emptyState sampleReq "n1" 0 true false).2.queue =
      emptyState.queue :=
  c6_publish_failure_nonfatal emptyState sampleReq "n1" 0 (by decide) (by decide)

def schedReq : NotificationRequest := { sampleReq with scheduledAt := some 100 }

/-- C5: for a gate-approved creation: when the insert succeeds and the
request is unscheduled or scheduled before the current time, exactly one
queue message is appended, keyed by and bearing the new notification's id;
when the request is scheduled in the future, nothing is published; and when
the insert fails the publish is skipped entirely (queue unchanged, no row
inserted). -/
theorem c5_publish_discipline (s : ServiceState) (req : NotificationRequest)
    (id : String) (now : Time)
    (hen : (Service.getUserPreferences s req.userID req.channel now).1.enabled = true) :
    (publishDue req.scheduledAt now = true →
      (Service.CreateNotification s req id now true true).2.queue =
        s.queue ++ [kafkaMessageOf (queueMessageOf (buildNotification req id now)
          (if req.priority = 0 then 2 else req.priority))] ∧
      (kafkaMessageOf (queueMessageOf (buildNotification req id now)
          (if req.priority = 0 then 2 else req.priority))).key = id ∧
      (kafkaMessageOf (queueMessageOf (buildNotification req id now)
          (if req.priority = 0 then 2 else req.priority))).value.id = id) ∧
    (∀ brokerOk, publishDue req.scheduledAt now = false →
      (Service.CreateNotification s req id now true brokerOk).2.queue = s.queue) ∧
    (∀ brokerOk,
      (Service.CreateNotification s req id now false brokerOk).2.queue = s.queue ∧
      (Service.CreateNotification s req id now false brokerOk).2.notifications =
        s.notifications) := by
  have hf := getUserPreferences_frame s req.userID req.channel now
  refine ⟨fun hdue => ⟨?_, rfl, rfl⟩, fun brokerOk hdue => ?_, fun brokerOk => ⟨?_, ?_⟩⟩
  · simp [Service.CreateNotification, hen, hdue, Producer.PublishNotification, hf.2.2]
  · simp [Service.CreateNotification, hen, hdue, hf.2.2]
  · simp [Service.CreateNotification, hen, hf.2.2]
  · simp [Service.CreateNotification, hen, hf.1]

/-- Witness for C5: concretely, an unscheduled creation appends the one keyed
message; a creation scheduled at time 100 (now = 0) publishes nothing; and a
failed insert leaves both queue and table unchanged. -/
theorem c5_publish_discipline_witness :
    ((Service.CreateNotification emptyState sampleReq "n1" 0 true true).2.queue =
        emptyState.queue ++ [kafkaMessageOf (queueMessageOf (buildNotification sampleReq "n1" 0)
          (if sampleReq.priority = 0 then 2 else sampleReq.priority))] ∧
      (kafkaMessageOf (queueMessageOf (buildNotification sampleReq "n1" 0)
          (if sampleReq.priority = 0 then 2 else sampleReq.priority))).key = "n1" ∧
      (kafkaMessageOf (queueMessageOf (buildNotification sampleReq "n1" 0)
          (if sampleReq.priority = 0 then 2 else sampleReq.priority))).value.id = "n1") ∧
    (Service.CreateNotification emptyState schedReq "n1" 0 true true).2.queue =
      emptyState.queue ∧
    ((Service.CreateNotification emptyState sampleReq "n1" 0 false true).2.queue =
        emptyState.queue ∧
      (Service.CreateNotification emptyState sampleReq "n1" 0 false true).2.notifications =
        emptyState.notifications) :=
  ⟨(c5_publish_discipline emptyState sampleReq "n1" 0 (by decide)).1 rfl,
   (c5_publish_discipline emptyState schedReq "n1" 0 (by decide)).2.1 true rfl,
   (c5_publish_discipline emptyState sampleReq "n1" 0 (by decide)).2.2 true⟩

/-- Counterexample to C7: metadata does not survive the round-trip. The
request carries metadata [("k","v")], but the fetched record's metadata is
empty: the `notifications` table has no metadata column and neither the
INSERT of `CreateNotification` nor the SELECT of `GetNotification` carries
one. -/
theorem c7_counterexample :
    sampleReq.metadata = [("k", "v")] ∧
    (Service.GetNotification
        (Service.CreateNotification emptyState sampleReq "n1" 0 true true).2 "n1").map
      Notification.metadata = some [] :=
  ⟨rfl, by decide⟩

/-- C7 (amended): for a gate-approved creation under a fresh id, fetching the
created record reproduces user id, channel, recipient, subject, body and
scheduled_at exactly, with the server-assigned id, `pending` status and
timestamps added — but with empty metadata, since metadata is not persisted. -/
theorem c7_roundtrip (s : ServiceState) (req : NotificationRequest)
    (id : String) (now : Time) (brokerOk : Bool)
    (hen : (Service.getUserPreferences s req.userID req.channel now).1.enabled = true)
    (hfresh : ∀ r ∈ s.notifications, r.id ≠ id) :
    Service.GetNotification
        ((Service.CreateNotification s req id now true brokerOk).2) id =
      some { id := id, userID := req.userID, channel := req.channel,
             recipient := req.recipient, subject := req.subject, body := req.body,
             status := .pending, externalID := "", errorMessage := "",
             retryCount := 0, scheduledAt := req.scheduledAt, sentAt := none,
             deliveredAt := none, createdAt := now, updatedAt := now,
             metadata := [] } := by
  rw [Service.GetNotification, create_insert_shape s req id now brokerOk hen,
      find?_append_fresh s.notifications _ id hfresh rfl]
  rfl

/-- Witness for C7 (amended): the concrete created email notification is
fetched back with all request fields, pending status and empty metadata. -/
theorem c7_roundtrip_witness :
    Service.GetNotification
        ((Service.CreateNotification emptyState sampleReq "n1" 0 true true).2) "n1" =
      some { id := "n1", userID := sampleReq.userID, channel := sampleReq.channel,
             recipient := sampleReq.recipient, subject := sampleReq.subject,
             body := sampleReq.body, status := .pending, externalID := "",
             errorMessage := "", retryCount := 0, scheduledAt := sampleReq.scheduledAt,
             sentAt := none, deliveredAt := none, createdAt := 0, updatedAt := 0,
             metadata := [] } :=
  c7_roundtrip emptyState sampleReq "n1" 0 true (by decide) (by simp [emptyState])

/-- Counterexample to C9: the populated cache key does not identify the
(user, channel) pair. Resolving (u1, email) and (u1, sms), each backed by its
own stored row, writes the identical cache key "user_preferences:u1": the
channel is absent from the write key (the read probe, by contrast, uses
"user_preferences:<user>:<channel>"). -/
theorem c9_counterexample :
    ((Service.getUserPreferences stateWithPrefs "u1" "email" 0).2.cache.map
        (fun e => e.1)) = ["user_preferences:u1"] ∧
    ((Service.getUserPreferences stateWithPrefs "u1" "sms" 0).2.cache.map
        (fun e => e.1)) = ["user_preferences:u1"] := by
  decide

/-- C9 (amended): preference resolution: when no preference row exists for
the (user, channel) pair, resolve returns the default enabled/immediate
preference and leaves the entire state unchanged (persisting nothing); when a
row exists, resolve returns that stored row and populates the cache with a
fixed one-hour expiry under key "user_preferences:<user>" — a key
identifying the user only, not the (user, channel) pair. -/
theorem c9_preference_resolution (s : ServiceState) (u c : String) (now : Time) :
    (prefLookup s.preferences u c = none →
      Service.getUserPreferences s u c now =
        ({ id := "", userID := u, channel := c, enabled := true,
           frequency := "immediate", createdAt := now, updatedAt := now }, s)) ∧
    (∀ p, prefLookup s.preferences u c = some p →
      Service.getUserPreferences s u c now =
        (prefOfRow p,
         { s with cache := redisSet s.cache ("user_preferences:" ++ u)
                            (prefOfRow p) 3600 })) := by
  constructor
  · intro h
    simp [Service.getUserPreferences, h]
  · intro p h
    simp [Service.getUserPreferences, h, RedisClient.CacheUserPreferences]

/-- Witness for C9 (amended): resolving a pair with no stored row returns the
default and leaves the state untouched; resolving (u1, email), which has a
stored row, returns that row and caches it under "user_preferences:u1". -/
theorem c9_preference_resolution_witness :
    Service.getUserPreferences emptyState "u2" "push" 7 =
      ({ id := "", userID := "u2", channel := "push", enabled := true,
         frequency := "immediate", createdAt := 7, updatedAt := 7 }, emptyState) ∧
    Service.getUserPreferences stateWithPrefs "u1" "email" 0 =
      (prefOfRow prefRowEmail,
       { stateWithPrefs with cache := redisSet stateWithPrefs.cache
                                        ("user_preferences:" ++ "u1")
                                        (prefOfRow prefRowEmail) 3600 }) :=
  ⟨(c9_preference_resolution emptyState "u2" "push" 7).1 rfl,
   (c9_preference_resolution stateWithPrefs "u1" "email" 0).2 prefRowEmail (by decide)⟩
